import Mathlib

/-! Verification of the summarize-with-ai userscript family against its
specification. The script revisions are shallowly embedded: JavaScript
strings become `String` or `List Char`, DOM element collections become
lists, the Greasemonkey storage becomes an association list, `setTimeout`
becomes an explicit timer queue, and the `prompt` dialog becomes an
`Option String` argument (`none` models a cancelled prompt). Each
revision of the script lives in its own namespace: `Main` for
summarize-with-ai.user.js, `V0`, `V1` and `V2` for the three unnamed
revisions, and `SpecModel` for the streaming assembler, which has no
implementation in the repository and is modelled from the spec. -/

namespace SWA

/-! ## JavaScript string primitives -/

/-- JavaScript whitespace test, used by `trim` and by splitting on the
regular expression for one-or-more whitespace characters. -/
def ws (c : Char) : Bool := c.isWhitespace

/-- Left half of JavaScript `String.prototype.trim`: drop leading
whitespace. -/
def trimL (l : List Char) : List Char := l.dropWhile ws

/-- Right half of JavaScript `String.prototype.trim`: drop trailing
whitespace. -/
def trimR : List Char → List Char
  | [] => []
  | c :: cs =>
    match trimR cs with
    | [] => if ws c then [] else [c]
    | r => c :: r

/-- JavaScript `String.prototype.trim`: strip surrounding whitespace. -/
def jsTrim (s : String) : String := String.mk (trimR (trimL s.data))

/-- Does `pat` occur at the head of `hay`? (building block for the
substring test behind the revision's URL regular expression). -/
def hasPrefixSeq : List Char → List Char → Bool
  | [], _ => true
  | _ :: _, [] => false
  | p :: ps, h :: hs => p == h && hasPrefixSeq ps hs

/-- Does `pat` occur contiguously anywhere inside `hay`? -/
def containsSeq (pat : List Char) : List Char → Bool
  | [] => pat.isEmpty
  | c :: t => hasPrefixSeq pat (c :: t) || containsSeq pat t

/-- JavaScript `s.split(on one-or-more whitespace)`: the result always has
at least one element; a leading whitespace run contributes a leading empty
piece and a trailing run a trailing empty piece, exactly as the JS engine
produces them. -/
def jsSplitWs : List Char → List (List Char)
  | [] => [[]]
  | c :: cs =>
    if ws c then
      match cs with
      | [] => [[], []]
      | c2 :: _ => if ws c2 then jsSplitWs cs else [] :: jsSplitWs cs
    else
      match jsSplitWs cs with
      | [] => [[c]]
      | h :: t => (c :: h) :: t

/-- The number of maximal non-whitespace runs: what a reader means by the
visible word count. Stated by the spec, not computed by the code (the code
uses `jsSplitWs` length instead). -/
def wordCount : List Char → Nat
  | [] => 0
  | c :: cs =>
    if ws c then wordCount cs
    else
      match cs with
      | [] => 1
      | c2 :: _ => if ws c2 then 1 + wordCount cs else wordCount cs

/-! ## Greasemonkey storage (GM.getValue / GM.setValue) -/

/-- Host storage: an association list from keys to stored strings, most
recent binding first. -/
abbrev Storage := List (String × String)

/-- GM.getValue: the most recently stored value for `k`, if any. -/
def getValue (st : Storage) (k : String) : Option String :=
  (List.find? (fun p => p.1 == k) st).map Prod.snd

/-- GM.setValue: store `v` under `k` (shadows any older binding). -/
def setValue (st : Storage) (k v : String) : Storage :=
  (k, v) :: st

/-! ## Content classifier, heuristic mode (V0.isArticlePage) -/

/-- The observations `isArticlePage` makes of the live document: whether a
semantic article container exists, the content of the OpenGraph og:type
meta tag (none when the tag is absent), the page address, and the visible
body text. -/
structure HeuristicDoc where
  hasArticleElement : Bool
  ogType : Option (List Char)
  url : List Char
  bodyText : List Char

namespace V0

/-- The og:type value the classifier compares against (strict equality in
the source). -/
def ogArticle : List Char := ['a', 'r', 't', 'i', 'c', 'l', 'e']

/-- The case-insensitive test of the URL against the news, article, story,
post keyword alternation. -/
def urlNewsRegexTest (url : List Char) : Bool :=
  let u := url.map Char.toLower
  containsSeq ['n', 'e', 'w', 's'] u
    || containsSeq ['a', 'r', 't', 'i', 'c', 'l', 'e'] u
    || containsSeq ['s', 't', 'o', 'r', 'y'] u
    || containsSeq ['p', 'o', 's', 't'] u

/-- V0.isArticlePage: article element, or og:type equal to article, or the
URL keyword pattern, or the whitespace-split of the body text having more
than 500 pieces. -/
def isArticlePage (d : HeuristicDoc) : Bool :=
  d.hasArticleElement
    || (match d.ogType with
        | some t => t == ogArticle
        | none => false)
    || urlNewsRegexTest d.url
    || decide (500 < (jsSplitWs d.bodyText).length)

end V0

/-! ## Credential store (Main: resetOpenAIApiKey / getOpenAIApiKey and the
Gemini twins, which differ only in the storage key and dialog text) -/

namespace Main

/-- Main.resetOpenAIApiKey / resetGeminiApiKey, parametrised by the storage
key. `promptInput` is what the prompt dialog returned (`none` = cancelled).
A non-empty entry is trimmed and stored; otherwise storage is untouched. -/
def resetApiKeyWith (key : String) (promptInput : Option String) (st : Storage) : Storage :=
  match promptInput with
  | some newKey => if newKey ≠ "" then setValue st key (jsTrim newKey) else st
  | none => st

/-- Main.resetOpenAIApiKey (double-click on the O button). -/
def resetOpenAIApiKey : Option String → Storage → Storage :=
  resetApiKeyWith "openai_api_key"

/-- Main.resetGeminiApiKey (double-click on the G button). -/
def resetGeminiApiKey : Option String → Storage → Storage :=
  resetApiKeyWith "gemini_api_key"

/-- The prompt branch of getOpenAIApiKey / getGeminiApiKey: a non-empty
entry is trimmed, stored and returned; a cancelled or empty entry yields
none (the caller aborts the attempt). -/
def promptForApiKey (key : String) (promptInput : Option String) (st : Storage) :
    Option String × Storage :=
  match promptInput with
  | some userInput =>
    if userInput ≠ "" then (some (jsTrim userInput), setValue st key (jsTrim userInput))
    else (none, st)
  | none => (none, st)

/-- Main.getOpenAIApiKey / getGeminiApiKey, parametrised by the storage key:
the stored value is trimmed on retrieval; when absent or empty the user is
prompted. -/
def getApiKeyWith (key : String) (promptInput : Option String) (st : Storage) :
    Option String × Storage :=
  match (getValue st key).map jsTrim with
  | some k => if k ≠ "" then (some k, st) else promptForApiKey key promptInput st
  | none => promptForApiKey key promptInput st

/-- Main.getOpenAIApiKey. -/
def getOpenAIApiKey : Option String → Storage → Option String × Storage :=
  getApiKeyWith "openai_api_key"

/-- Main.getGeminiApiKey. -/
def getGeminiApiKey : Option String → Storage → Option String × Storage :=
  getApiKeyWith "gemini_api_key"

end Main

/-! ## Summary overlay (Main.showSummaryOverlay / updateSummaryOverlay and
V0.showSummaryOverlay) -/

/-- The page state the overlay functions touch: the content of each element
carrying the overlay id, in document order (the nested content div's inner
HTML, after its close-button div), plus whether body scrolling is
disabled. -/
structure OverlayState where
  overlays : List String
  bodyOverflowHidden : Bool
deriving DecidableEq

namespace Main

/-- Main.updateSummaryOverlay: the content div is looked up by id (the
first match); when present its inner HTML is replaced by a fresh close
button plus `content`; when absent nothing happens. -/
def updateSummaryOverlay (content : String) (s : OverlayState) : OverlayState :=
  match s.overlays with
  | [] => s
  | _ :: rest => { s with overlays := content :: rest }

/-- Main.showSummaryOverlay: when an element with the overlay id already
exists the call delegates to updateSummaryOverlay and returns; otherwise a
single overlay is created with the given content and body scrolling is
disabled. -/
def showSummaryOverlay (content : String) (s : OverlayState) : OverlayState :=
  match s.overlays with
  | [] => { overlays := [content], bodyOverflowHidden := true }
  | _ :: _ => updateSummaryOverlay content s

end Main

namespace V0

/-- V0.showSummaryOverlay: unconditionally creates a new overlay element
and appends it to the body; there is no check for an existing instance. -/
def showSummaryOverlay (content : String) (s : OverlayState) : OverlayState :=
  { overlays := s.overlays ++ [content], bodyOverflowHidden := true }

end V0

/-! ## Error notification (Main.showErrorNotification) with an explicit
timer queue for setTimeout -/

/-- One error-notification div: `stamp` identifies the DOM node (the
removal closure captures the node, not the id), `text` its innerText. -/
structure NotifElem where
  stamp : Nat
  text : String
deriving DecidableEq

/-- Page state for the notification subsystem: the elements carrying the
error id in document order, the pending setTimeout callbacks as (absolute
fire time, stamp of the captured div), and a fresh-stamp counter. -/
structure NotifState where
  elems : List NotifElem
  timers : List (Nat × Nat)
  nextStamp : Nat
deriving DecidableEq

namespace Main

/-- Main.showErrorNotification at absolute time `now`: when an element with
the error id exists, only its text is replaced (the function returns before
reaching setTimeout, so no new removal timer is scheduled); otherwise a new
div is appended and its removal is scheduled 4000 ms from now. -/
def showErrorNotification (now : Nat) (message : String) (s : NotifState) : NotifState :=
  match s.elems with
  | e :: rest => { s with elems := { e with text := message } :: rest }
  | [] =>
    { elems := [⟨s.nextStamp, message⟩]
      timers := s.timers ++ [(now + 4000, s.nextStamp)]
      nextStamp := s.nextStamp + 1 }

/-- The body of the scheduled callback: errorDiv.remove() detaches the
captured div (identified by its stamp) if it is still attached. -/
def fireTimer (stamp : Nat) (elems : List NotifElem) : List NotifElem :=
  elems.filter (fun e => e.stamp != stamp)

/-- Run every pending setTimeout whose fire time is at or before `t`, in
scheduling order, and drop them from the queue. -/
def runTimersUpTo (t : Nat) (s : NotifState) : NotifState :=
  { elems := List.foldl (fun es tm => if tm.1 ≤ t then fireTimer tm.2 es else es) s.elems s.timers
    timers := s.timers.filter (fun tm => decide (t < tm.1))
    nextStamp := s.nextStamp }

end Main

/-! ## API response handling (Main.handleOpenAIResponse and
V2.handleApiResponse) -/

/-- The replace of each single newline by a br tag (the /\n/g regex of the
V1 and V2 revisions). -/
def replaceNewlinesEach : List Char → List Char
  | [] => []
  | c :: cs =>
    if c = '\n' then '<' :: 'b' :: 'r' :: '>' :: replaceNewlinesEach cs
    else c :: replaceNewlinesEach cs

/-- One element of the chat messages array. -/
structure ChatMessage where
  role : String
  content : String
deriving DecidableEq

/-- One element of the response's choices array. -/
structure OpenAIChoice where
  message : ChatMessage
deriving DecidableEq

/-- The parsed JSON body of a chat-completions response. -/
structure OpenAIBody where
  choices : List OpenAIChoice
deriving DecidableEq

/-- The response object the onload handler receives: `status` is none when
the transport delivered no HTTP status (response.status === undefined);
`body` is the JSON.parse of responseText, none when parsing fails or the
body is absent. -/
structure HttpResponse where
  status : Option Nat
  body : Option OpenAIBody
deriving DecidableEq

/-- What a response handler does: write the summary into the overlay, or
surface an error both as a transient notification and as overlay content
(neither outcome is swallowed). -/
inductive HandlerResult where
  | success (overlayHtml : String)
  | failure (notification : String) (overlayHtml : String)
deriving DecidableEq

namespace Main

/-- The status rendering of the generic failure message:
response.status || N/A, so an undefined or zero status renders as N/A. -/
def statusLabel : Option Nat → String
  | none => "N/A"
  | some 0 => "N/A"
  | some s => toString s

/-- The replace of every newline run by a br tag (the /\n+/g regex of the
Main revision). -/
def collapseNewlineRuns : List Char → List Char
  | [] => []
  | c :: cs =>
    if c = '\n' then
      match cs with
      | c2 :: _ =>
        if c2 = '\n' then collapseNewlineRuns cs
        else '<' :: 'b' :: 'r' :: '>' :: collapseNewlineRuns cs
      | [] => ['<', 'b', 'r', '>']
    else c :: collapseNewlineRuns cs

/-- summary.replace(newline runs, br) as a String function. -/
def formatSummary (s : String) : String := String.mk (collapseNewlineRuns s.data)

/-- Main.handleOpenAIResponse: a non-200 status yields the 401-specific,
undefined-specific or raw-status failure message, shown both as a
notification and in the overlay; a 200 status extracts
choices[0].message.content, failing with the parse message when the body
or the field chain is missing or the summary is empty. -/
def handleOpenAIResponse (r : HttpResponse) : HandlerResult :=
  if r.status ≠ some 200 then
    let errorMessage :=
      if r.status = some 401 then "Error: Invalid OpenAI API key."
      else if r.status = none then "Error: Unexpected OpenAI API response."
      else "Error: Failed to retrieve summary. Status: " ++ statusLabel r.status
    .failure errorMessage ("<p>" ++ errorMessage ++ "</p>")
  else
    match r.body with
    | some b =>
      match b.choices with
      | c :: _ =>
        if c.message.content ≠ "" then .success (formatSummary c.message.content)
        else
          .failure "Error: Failed to parse OpenAI API response."
            "<p>Error: Failed to parse OpenAI API response.</p>"
      | [] =>
        .failure "Error: Failed to parse OpenAI API response."
          "<p>Error: Failed to parse OpenAI API response.</p>"
    | none =>
      .failure "Error: Failed to parse OpenAI API response."
        "<p>Error: Failed to parse OpenAI API response.</p>"

end Main

namespace V2

/-- What the V2 handler can throw: an Error with a message built by the
handler itself (the status branch), or a JSON.parse / missing-field
exception whose message is produced by the runtime, not by the source. -/
inductive V2Failure where
  | thrown (message : String)
  | parseError
deriving DecidableEq

/-- The single failure template of V2.handleApiResponse, applied uniformly
to every non-200 status. -/
def apiErrorMessage (status : Nat) (statusText : String) : String :=
  "API Error (" ++ toString status ++ "): " ++ statusText

/-- V2.handleApiResponse for the openai service: every non-200 status
throws the one generic template (there is no 401-specific branch); a 200
status dereferences choices[0].message.content without null checks, so a
missing body or empty choices list throws a runtime error. -/
def handleApiResponse (status : Nat) (statusText : String) (body : Option OpenAIBody) :
    Except V2Failure String :=
  if status ≠ 200 then .error (.thrown (apiErrorMessage status statusText))
  else
    match body with
    | none => .error .parseError
    | some b =>
      match b.choices with
      | c :: _ => .ok (String.mk (replaceNewlinesEach c.message.content.data))
      | [] => .error .parseError

end V2

/-! ## Request building (Main.summarizeContentOpenAI /
Main.summarizeContentGemini) -/

namespace Main

def OPENAI_API_URL : String := "https://api.openai.com/v1/chat/completions"

def GEMINI_API_URL : String :=
  "https://generativelanguage.googleapis.com/v1beta/models/gemini-2.0-flash-exp:generateContent?key="

/-- The normalized request body, before JSON serialization: the chat shape
(model, role-tagged messages, bounded output length, temperature in tenths
for the literal 0.5, single candidate, stream flag) or the Gemini
single-document shape (one user turn of text parts). -/
inductive RequestBody where
  | openAIChat (model : String) (messages : List ChatMessage)
      (maxTokens : Nat) (temperatureTenths : Nat) (n : Nat) (streaming : Bool)
  | geminiContents (role : String) (parts : List String)
deriving DecidableEq

/-- The GM.xmlHttpRequest argument object. -/
structure HttpRequest where
  method : String
  url : String
  headers : List (String × String)
  data : RequestBody
deriving DecidableEq

/-- The system message of the OpenAI request, a fixed instruction template
with the user's locale interpolated near the end. -/
def openAISystemPrompt (userLanguage : String) : String :=
  "You are a helpful assistant that provides clear and affirmative explanations of the content within an article based on its title and content. Your summary should convey exactly what is contained in the article and each of its sections, ensuring that all crucial and fundamental points are covered so that the reader does not miss any important details without needing to read the entire article. Additionally, ensure that the summary addresses the proposition of the title while encompassing a broader overview of the article's content, as the full article answers more than what is suggested by the title.\n\nYou should generate a concise summary that includes a brief introduction followed by a list of topics. For the topics, use appropriate emojis as bullet points, and each topic should consist of descriptive and affirmative statements summarizing its subject.\n\nYou must always use HTML tags to structure the summary text. You must always use the user's language in addition to the article's original language. The generated HTML should be ready to be injected into the target location, and you must never use markdown, not even to refer the HTML code itself.\n\nRequired structure:\n- Do not add any title\n- Use a maximum of 2 sentences for the introduction.\n- Use appropriate emojis for topics\n- Do not add text like \"Article Summary\" or \"Summary of the article\" in the summary, nor \"Introduction\", \"Topics\", \"Conclusion\", etc.\n- Be concise, informative, and avoid losing important details. But short for fast reading.\n\nUser language: "
    ++ userLanguage
    ++ ".\nAdapt the text to be short, concise, and informative without losing important details."

/-- The single text blob of the Gemini request: the instruction template
with the locale, then the article title and content. -/
def geminiPrompt (userLanguage title content : String) : String :=
  "You are a helpful assistant that provides clear and affirmative explanations of the content within an article based on its title and content. Your summary should convey exactly what is contained in the article and each of its sections, ensuring that all crucial and fundamental points are covered so that the reader does not miss any important details without needing to read the entire article. Additionally, ensure that the summary addresses the proposition of the title while encompassing a broader overview of the article's content, as the full article answers more than what is suggested by the title.\n\nYou should generate a concise summary that includes a brief introduction followed by a list of topics. For the topics, use appropriate emojis as bullet points, and each topic should consist of descriptive and affirmative statements summarizing its subject.\n\nYou must always use HTML tags to structure the summary text. You must always use the user's language in addition to the article's original language. The generated HTML should be ready to be injected into the target location, and you must never use markdown.\n\nRequired structure:\n- Do not add any title\n- Use a maximum of 2 sentences for the introduction.\n- Use appropriate emojis for topics\n- Do not add text like \"Article Summary\" or \"Summary of the article\" in the summary, nor \"Introduction\", \"Topics\", \"Conclusion\", etc.\n\nUser language: "
    ++ userLanguage
    ++ ".\nAdapt the text to be short, concise, and informative without losing important details.\n\nTitle: "
    ++ title
    ++ "\n\nContent: "
    ++ content

/-- Main.summarizeContentOpenAI, up to the GM.xmlHttpRequest call: the
request it dispatches. The key travels in the Authorization header as a
Bearer token; the URL is the fixed chat-completions endpoint. -/
def summarizeContentOpenAI (apiKey title content userLanguage : String) : HttpRequest :=
  { method := "POST"
    url := OPENAI_API_URL
    headers := [("Content-Type", "application/json"), ("Authorization", "Bearer " ++ apiKey)]
    data := .openAIChat "gpt-4o-mini"
      [⟨"system", openAISystemPrompt userLanguage⟩,
       ⟨"user", "Title: " ++ title ++ "\n\nContent: " ++ content⟩]
      500 5 1 false }

/-- Main.summarizeContentGemini, up to the GM.xmlHttpRequest call: the key
is appended to the endpoint URL as the key query parameter; the headers
carry only the content type. -/
def summarizeContentGemini (apiKey title content userLanguage : String) : HttpRequest :=
  { method := "POST"
    url := GEMINI_API_URL ++ apiKey
    headers := [("Content-Type", "application/json")]
    data := .geminiContents "user" [geminiPrompt userLanguage title content] }

end Main

/-! ## Keyboard handling (Main.handleKeyDown) -/

/-- The two providers the Main revision can select. -/
inductive ModelChoice where
  | openai
  | gemini
deriving DecidableEq

/-- The observable effects of one handleKeyDown call: button visibility
changes, whether preventDefault was called on the event, and which
summarization (if any) was triggered. -/
structure KeyDownResult where
  buttonsHidden : Bool
  buttonsShown : Bool
  preventDefault : Bool
  trigger : Option ModelChoice
deriving DecidableEq

namespace Main

/-- Main.handleKeyDown: with an editable element focused the buttons are
hidden and nothing else happens; otherwise the buttons are shown,
preventDefault is called whenever Alt is held (before the key code is
inspected), and KeyO / KeyG select and trigger the matching provider. -/
def handleKeyDown (inputFocused altKey : Bool) (code : String) : KeyDownResult :=
  if inputFocused then
    { buttonsHidden := true, buttonsShown := false, preventDefault := false, trigger := none }
  else
    { buttonsHidden := false
      buttonsShown := true
      preventDefault := altKey
      trigger :=
        if altKey then
          if code = "KeyO" then some .openai
          else if code = "KeyG" then some .gemini
          else none
        else none }

end Main

/-! ## Extractor-mode classification (getArticleData in Main, V1, V2) -/

/-- The parse result of the external Readability extractor. -/
structure Article where
  title : String
  content : String
  textContent : String
deriving DecidableEq

/-- The candidate getArticleData hands to the session: the extractor title
and the plain textContent as the summarization input. -/
structure ArticleCandidate where
  title : String
  content : String
deriving DecidableEq

/-- The possible outcomes of consulting the external extractor: it threw,
isProbablyReaderable said no, or parse returned null or an article. -/
inductive ExtractorOutcome where
  | threw
  | notReaderable
  | parsed (article : Option Article)
deriving DecidableEq

namespace Main

/-- Main.getArticleData: any exception degrades to null; a page
isProbablyReaderable rejects degrades to null; a parse result must have a
truthy (non-empty) content and a truthy title to yield a candidate. -/
def getArticleData : ExtractorOutcome → Option ArticleCandidate
  | .threw => none
  | .notReaderable => none
  | .parsed none => none
  | .parsed (some a) =>
    if a.content ≠ "" ∧ a.title ≠ "" then some ⟨a.title, a.textContent⟩ else none

end Main

namespace V1

/-- V1.getArticleData: as Main but without an isProbablyReaderable gate
(that revision does not load the readerable helper); error means the
extractor threw. -/
def getArticleData : Except Unit (Option Article) → Option ArticleCandidate
  | .error () => none
  | .ok none => none
  | .ok (some a) =>
    if a.content ≠ "" ∧ a.title ≠ "" then some ⟨a.title, a.textContent⟩ else none

end V1

namespace V2

/-- V2.getArticleData: the positive branch tests article?.content only —
the title is passed through without a non-empty check. -/
def getArticleData : ExtractorOutcome → Option ArticleCandidate
  | .threw => none
  | .notReaderable => none
  | .parsed none => none
  | .parsed (some a) =>
    if a.content ≠ "" then some ⟨a.title, a.textContent⟩ else none

end V2

/-! ## Focus-driven trigger visibility (Main.toggleButtonVisibility,
Main.showElement, Main.hideElement and V2.toggleButtonVisibility) -/

/-- One DOM element as the visibility helpers see it: its id and its
current display style value. -/
structure DomElem where
  id : String
  display : String
deriving DecidableEq

/-- Assign a display value to the first element with the given id, if
any. -/
def setDisplayFirst (i disp : String) : List DomElem → List DomElem
  | [] => []
  | e :: t => if e.id == i then { e with display := disp } :: t else e :: setDisplayFirst i disp t

namespace Main

def OPENAI_BUTTON_ID : String := "openai-summarize-button"

def GEMINI_BUTTON_ID : String := "gemini-summarize-button"

/-- Main.showElement: getElementById, and only when an element is found its
display becomes block; an absent id is a silent no-op. -/
def showElement (i : String) (dom : List DomElem) : List DomElem :=
  match List.find? (fun e => e.id == i) dom with
  | some _ => setDisplayFirst i "block" dom
  | none => dom

/-- Main.hideElement: getElementById, and only when an element is found its
display becomes none; an absent id is a silent no-op. -/
def hideElement (i : String) (dom : List DomElem) : List DomElem :=
  match List.find? (fun e => e.id == i) dom with
  | some _ => setDisplayFirst i "none" dom
  | none => dom

/-- Main.toggleButtonVisibility, run on every focusin/focusout: hide both
buttons while an editable element is focused, show them when the page was
classified an article, otherwise do nothing. -/
def toggleButtonVisibility (inputFocused isArticle : Bool) (dom : List DomElem) :
    List DomElem :=
  if inputFocused then hideElement GEMINI_BUTTON_ID (hideElement OPENAI_BUTTON_ID dom)
  else if isArticle then showElement GEMINI_BUTTON_ID (showElement OPENAI_BUTTON_ID dom)
  else dom

end Main

namespace V2

def BUTTON_ID : String := "summarize-button"

/-- V2.toggleButtonVisibility: dereferences
getElementById(BUTTON_ID).style.display with no null check, so when no
element carries the button id (a page not classified as an article) the
handler throws a TypeError, modelled as the error case. -/
def toggleButtonVisibility (inputFocused : Bool) (dom : List DomElem) :
    Except Unit (List DomElem) :=
  match List.find? (fun e => e.id == BUTTON_ID) dom with
  | some _ => .ok (setDisplayFirst BUTTON_ID (if inputFocused then "none" else "block") dom)
  | none => .error ()

end V2

/-! ## The Streaming Assembler (SpecModel), modelled from the spec -/

namespace SpecModel

/-- Modelled from the spec: the repository's revisions all request
stream:false and carry no streaming implementation, so the Streaming
Assembler of spec section 4.5 is built here from the spec's words. The
StreamBuffer holds the carry-over of the last, possibly-incomplete line,
the ordered concatenation of all delta fragments extracted so far, and
whether the termination sentinel has been seen. -/
structure StreamBuffer where
  pending : List Char
  emitted : List Char
  done : Bool
deriving DecidableEq

/-- The fixed event-frame marker. -/
def marker : List Char := ['d', 'a', 't', 'a', ':', ' ']

/-- The termination sentinel following the marker. -/
def sentinel : List Char := ['[', 'D', 'O', 'N', 'E', ']']

/-- Opening characters of the schematic JSON fragment of the spec's test
vector. -/
def deltaOpen : List Char := ['{', 'd', 'e', 'l', 't', 'a', ':', '\"']

/-- Closing characters of the schematic JSON fragment. -/
def deltaClose : List Char := ['\"', '}']

/-- Modelled from the spec: parse a frame payload as JSON and extract the
nested delta text field. The payload shape is the spec's own schematic
vector; anything else is a malformed frame (parse failure). -/
def parseDelta (l : List Char) : Option (List Char) :=
  if l.take 8 = deltaOpen ∧ 10 ≤ l.length ∧ l.drop (l.length - 2) = deltaClose
  then some ((l.drop 8).take (l.length - 10))
  else none

/-- Split into the complete lines (text before each newline) and the
trailing segment after the last newline, which is the next carry-over. -/
def splitCR : List Char → List (List Char) × List Char
  | [] => ([], [])
  | c :: cs =>
    let r := splitCR cs
    if c = '\n' then ([] :: r.1, r.2)
    else
      match r.1 with
      | [] => ([], c :: r.2)
      | s :: ss => ((c :: s) :: ss, r.2)

/-- One complete line, acting on the (emitted, done) part of the state: a
line not beginning with the marker is skipped; after stripping the marker,
the sentinel stops processing, a parsed delta is emitted in order, and a
parse failure skips the frame. -/
def lineStep (st : List Char × Bool) (l : List Char) : List Char × Bool :=
  if l.take 6 = marker then
    let rest := l.drop 6
    if rest = sentinel then (st.1, true)
    else
      match parseDelta rest with
      | some d => (st.1 ++ d, st.2)
      | none => st
  else st

/-- Process complete lines in order, stopping at the sentinel. -/
def processLines (st : List Char × Bool) : List (List Char) → List Char × Bool
  | [] => st
  | l :: ls => if st.2 then st else processLines (lineStep st l) ls

/-- feed(rawChunk): concatenate carry-over and new bytes, split on
newlines, process each complete line, and re-buffer the trailing segment
as the next carry-over; after the sentinel nothing further is processed
and the carry-over is discarded. -/
def feed (st : StreamBuffer) (chunk : List Char) : StreamBuffer :=
  if st.done then st
  else
    let parts := splitCR (st.pending ++ chunk)
    let r := processLines (st.emitted, false) parts.1
    if r.2 then ⟨[], r.1, true⟩ else ⟨parts.2, r.1, false⟩

/-- Feed a sequence of transport chunks one at a time. -/
def feedAll (st : StreamBuffer) (chunks : List (List Char)) : StreamBuffer :=
  chunks.foldl feed st

/-- The frame a provider emits for one delta. -/
def encodeFrame (d : List Char) : List Char :=
  marker ++ deltaOpen ++ d ++ deltaClose ++ ['\n', '\n']

/-- The sentinel frame ending a logical stream. -/
def doneFrame : List Char := marker ++ sentinel ++ ['\n', '\n']

/-- The full logical event stream for an ordered list of deltas. -/
def eventStream (ds : List (List Char)) : List Char :=
  (ds.map encodeFrame).flatten ++ doneFrame

/-- A fresh assembler. -/
def initBuffer : StreamBuffer := ⟨[], [], false⟩

end SpecModel

/-! ## Concrete test vectors -/

/-- A document with 499 visible words whose body text starts and ends with
whitespace, no article element, no og:type tag and a keyword-free URL: the
whitespace-split has 501 pieces, so the heuristic classifier counts it as
an article although its word count is below 500. -/
def heuristicCounterDoc : HeuristicDoc :=
  { hasArticleElement := false
    ogType := none
    url := ['h', 't', 't', 'p', 's', ':', '/', '/', 'e', 'x', 'a', 'm', 'p', 'l',
            'e', '.', 'c', 'o', 'm', '/', 'x']
    bodyText := ' ' :: (List.replicate 499 ['w', ' ']).flatten }

/-- The spec's streaming test vector: two delta frames carrying Hel and lo
followed by the sentinel frame. -/
def helloStream : List Char :=
  ("data: \x7bdelta:\x22Hel\x22\x7d\n\ndata: \x7bdelta:\x22lo\x22\x7d\n\ndata: [DONE]\n\n").data

/-- The first 16 bytes of the vector: a cut in the middle of the first
frame, not aligned with any frame boundary. -/
def helloChunk1 : List Char := helloStream.take 16

/-- The remainder of the vector after the unaligned cut. -/
def helloChunk2 : List Char := helloStream.drop 16

/-! ## Theorems -/

/-- C1 (amended): for two successive showSummaryOverlay calls of the Main
revision starting from a page without an overlay, the first call creates
the single instance and the second updates it in place, so exactly one
overlay exists afterwards and its content is the second call's content.
The amendment restricts the claim to the revisions that check for an
existing instance (Main, V1, V2); the V0 revision appends a second
instance (see the counterexample). -/
theorem showSummaryOverlay_singleton (c1 c2 : String) (s : OverlayState)
    (h : s.overlays = []) :
    (Main.showSummaryOverlay c1 s).overlays = [c1] ∧
    (Main.showSummaryOverlay c2 (Main.showSummaryOverlay c1 s)).overlays = [c2] := by
  simp [Main.showSummaryOverlay, Main.updateSummaryOverlay, h]

/-- C1 witness: the two-call scenario at concrete contents on an empty
page. -/
theorem showSummaryOverlay_singleton_witness :
    (Main.showSummaryOverlay "first" ⟨[], false⟩).overlays = ["first"] ∧
    (Main.showSummaryOverlay "second" (Main.showSummaryOverlay "first" ⟨[], false⟩)).overlays
      = ["second"] :=
  showSummaryOverlay_singleton "first" "second" ⟨[], false⟩ rfl

/-- C1 counterexample: V0.showSummaryOverlay has no existing-instance
check, so two successive calls starting from an empty page leave two
overlay instances in the page, contradicting the claim for the cited V0
revision. -/
theorem showSummaryOverlay_V0_counterexample :
    (V0.showSummaryOverlay "second" (V0.showSummaryOverlay "first" ⟨[], false⟩)).overlays
        = ["first", "second"] ∧
    (V0.showSummaryOverlay "second" (V0.showSummaryOverlay "first" ⟨[], false⟩)).overlays.length
        = 2 := by
  constructor <;> rfl

theorem notLe_of_lt {a b : Nat} (h : a < b) : ¬ b ≤ a := Nat.not_le.mpr h

/-- C3 (amended): a second showErrorNotification call while the first
notification is still visible leaves exactly one notification element,
with the second message as its text, but does NOT reset the dismissal
timer: no timer fires before the second call, the only scheduled removal
remains the first call's, and running the timers at the first call's
deadline (t1 + 4000) removes the notification — 4000 ms after the first
call, not after the second. -/
theorem showErrorNotification_replaces_text (t1 t2 : Nat) (m1 m2 : String)
    (h : t2 < t1 + 4000) :
    (Main.showErrorNotification t2 m2 (Main.showErrorNotification t1 m1 ⟨[], [], 0⟩)).elems
        = [⟨0, m2⟩] ∧
    (Main.showErrorNotification t2 m2 (Main.showErrorNotification t1 m1 ⟨[], [], 0⟩)).timers
        = [(t1 + 4000, 0)] ∧
    Main.runTimersUpTo t2 (Main.showErrorNotification t1 m1 ⟨[], [], 0⟩)
        = Main.showErrorNotification t1 m1 ⟨[], [], 0⟩ ∧
    (Main.runTimersUpTo (t1 + 4000)
        (Main.showErrorNotification t2 m2 (Main.showErrorNotification t1 m1 ⟨[], [], 0⟩))).elems
        = [] := by
  have hn : ¬ (t1 + 4000 ≤ t2) := notLe_of_lt h
  refine ⟨?_, ?_, ?_, ?_⟩ <;>
    simp [Main.showErrorNotification, Main.runTimersUpTo, Main.fireTimer, hn, h]

/-- C3 witness: the two-call scenario at concrete times 0 and 1000 and
concrete messages. -/
theorem showErrorNotification_replaces_text_witness :
    (Main.showErrorNotification 1000 "second" (Main.showErrorNotification 0 "first" ⟨[], [], 0⟩)).elems
        = [⟨0, "second"⟩] ∧
    (Main.showErrorNotification 1000 "second" (Main.showErrorNotification 0 "first" ⟨[], [], 0⟩)).timers
        = [(0 + 4000, 0)] ∧
    Main.runTimersUpTo 1000 (Main.showErrorNotification 0 "first" ⟨[], [], 0⟩)
        = Main.showErrorNotification 0 "first" ⟨[], [], 0⟩ ∧
    (Main.runTimersUpTo (0 + 4000)
        (Main.showErrorNotification 1000 "second" (Main.showErrorNotification 0 "first" ⟨[], [], 0⟩))).elems
        = [] :=
  showErrorNotification_replaces_text 0 1000 "first" "second" (by decide)

/-- C3 counterexample: first notification at time 0, second call at time
1000 while it is visible; at time 4000 the notification is already gone
(the first call's timer removed it), although 4000 is earlier than
1000 + 4000, the removal time the claim asserts. The second call never
schedules a timer, so the dismissal timer is not reset. -/
theorem showErrorNotification_timer_counterexample :
    (Main.runTimersUpTo 4000
        (Main.showErrorNotification 1000 "second error"
          (Main.showErrorNotification 0 "first error" ⟨[], [], 0⟩))).elems = [] ∧
    4000 < 1000 + 4000 := by
  constructor <;> decide

theorem statusLabel_pos (s : Nat) (h : s ≠ 0) : Main.statusLabel (some s) = toString s := by
  cases s with
  | zero => exact absurd rfl h
  | succ n => rfl

/-- C4 (amended): in Main.handleOpenAIResponse, every HTTP response whose
status is non-2xx produces a failure surfaced both as a notification and
as overlay content: status 401 produces the distinct invalid-key message
(different from the generic message for 401), and every other non-2xx
status produces the message labeled with the raw status value. The
amendment excludes the V2 revision, whose handleApiResponse applies the
one generic raw-status template to every non-200 status and does not
distinguish 401 (see the counterexample). -/
theorem handleOpenAIResponse_status_errors (s : Nat) (r : HttpResponse)
    (hs : r.status = some s) (h2xx : ¬(200 ≤ s ∧ s < 300)) (h100 : 100 ≤ s) :
    (s = 401 →
      Main.handleOpenAIResponse r
          = .failure "Error: Invalid OpenAI API key." "<p>Error: Invalid OpenAI API key.</p>"
        ∧ "Error: Invalid OpenAI API key." ≠ "Error: Failed to retrieve summary. Status: 401") ∧
    (s ≠ 401 →
      Main.handleOpenAIResponse r
        = .failure ("Error: Failed to retrieve summary. Status: " ++ toString s)
            ("<p>" ++ ("Error: Failed to retrieve summary. Status: " ++ toString s) ++ "</p>")) := by
  have hs200 : s ≠ 200 := fun he => h2xx (by omega)
  constructor
  · intro h401
    subst h401
    refine ⟨?_, by decide⟩
    simp [Main.handleOpenAIResponse, hs]
  · intro hn401
    have h0 : s ≠ 0 := by omega
    simp [Main.handleOpenAIResponse, hs, hs200, hn401, statusLabel_pos s h0]

/-- C4 witness: a concrete 503 response takes the raw-status branch. -/
theorem handleOpenAIResponse_status_errors_witness :
    ((503 : Nat) = 401 →
      Main.handleOpenAIResponse ⟨some 503, none⟩
          = .failure "Error: Invalid OpenAI API key." "<p>Error: Invalid OpenAI API key.</p>"
        ∧ "Error: Invalid OpenAI API key." ≠ "Error: Failed to retrieve summary. Status: 401") ∧
    ((503 : Nat) ≠ 401 →
      Main.handleOpenAIResponse ⟨some 503, none⟩
        = .failure ("Error: Failed to retrieve summary. Status: " ++ toString (503 : Nat))
            ("<p>" ++ ("Error: Failed to retrieve summary. Status: " ++ toString (503 : Nat)) ++ "</p>")) :=
  handleOpenAIResponse_status_errors 503 ⟨some 503, none⟩ rfl (by decide) (by decide)

/-- C4 counterexample: the V2 revision's handler produces for status 401
exactly the generic raw-status failure template — the same template every
other non-200 status receives (500 shown for comparison) — and no distinct
invalid-credential message, contradicting the claim for the cited
V2.handleApiResponse. -/
theorem handleApiResponse_401_counterexample :
    V2.handleApiResponse 401 "Unauthorized" none
        = .error (.thrown (V2.apiErrorMessage 401 "Unauthorized")) ∧
    V2.apiErrorMessage 401 "Unauthorized" = "API Error (401): Unauthorized" ∧
    V2.handleApiResponse 500 "Internal Server Error" none
        = .error (.thrown (V2.apiErrorMessage 500 "Internal Server Error")) :=
  ⟨rfl, by decide, rfl⟩

theorem trimR_nil : trimR ([] : List Char) = [] := rfl

theorem trimR_cons_eq (c : Char) (cs : List Char) :
    trimR (c :: cs) =
      match trimR cs with
      | [] => if ws c then [] else [c]
      | r => c :: r := rfl

theorem trimR_idem (l : List Char) : trimR (trimR l) = trimR l := by
  induction l with
  | nil => rfl
  | cons c cs ih =>
    cases h : trimR cs with
    | nil =>
      by_cases hc : ws c = true <;> simp [trimR_cons_eq, trimR_nil, h, hc]
    | cons d ds =>
      have h2 : trimR (d :: ds) = d :: ds := by rw [← h]; exact ih
      have hcc : trimR (c :: cs) = c :: d :: ds := by rw [trimR_cons_eq, h]
      rw [hcc, trimR_cons_eq, h2]

theorem trimL_head_nonws (l : List Char) (c : Char) (cs : List Char)
    (h : trimL l = c :: cs) : ws c = false := by
  induction l with
  | nil => simp [trimL] at h
  | cons a as ih =>
    cases ha : ws a with
    | true =>
      simp [trimL, List.dropWhile, ha] at h
      exact ih h
    | false =>
      simp [trimL, List.dropWhile, ha] at h
      rw [← h.1]
      exact ha

theorem trimL_trimR_trimL (l : List Char) : trimL (trimR (trimL l)) = trimR (trimL l) := by
  cases h : trimL l with
  | nil => rfl
  | cons c cs =>
    have hc : ws c = false := trimL_head_nonws l c cs h
    cases h2 : trimR cs with
    | nil => simp [trimR_cons_eq, trimR_nil, h2, hc, trimL, List.dropWhile]
    | cons d ds => simp [trimR_cons_eq, h2, trimL, List.dropWhile, hc]

theorem jsTrim_idem (s : String) : jsTrim (jsTrim s) = jsTrim s := by
  unfold jsTrim
  rw [show (String.mk (trimR (trimL s.data))).data = trimR (trimL s.data) from rfl]
  rw [trimL_trimR_trimL, trimR_idem]

theorem getValue_setValue (st : Storage) (k v : String) :
    getValue (setValue st k v) k = some v := by
  simp [getValue, setValue, List.find?]

/-- C5: the credential round-trip with trimming, for both providers of the
Main revision: a reset (or first-use prompt) stores the trimmed secret,
retrieval trims again, and the retrieved key is the trimmed secret. -/
theorem credential_round_trip (secret : String) (st : Storage)
    (h1 : secret ≠ "") (h2 : jsTrim secret ≠ "") :
    (Main.getOpenAIApiKey none (Main.resetOpenAIApiKey (some secret) st)).1
        = some (jsTrim secret) ∧
    (Main.getGeminiApiKey none (Main.resetGeminiApiKey (some secret) st)).1
        = some (jsTrim secret) := by
  constructor <;>
    simp [Main.getOpenAIApiKey, Main.getGeminiApiKey, Main.resetOpenAIApiKey,
      Main.resetGeminiApiKey, Main.getApiKeyWith, Main.resetApiKeyWith,
      h1, h2, getValue_setValue, jsTrim_idem]

/-- C5 witness: the spec's own vector, a secret with surrounding blanks
stored and retrieved as its trimmed form for both providers. -/
theorem credential_round_trip_witness :
    (Main.getOpenAIApiKey none (Main.resetOpenAIApiKey (some "  abc123  ") [])).1
        = some "abc123" ∧
    (Main.getGeminiApiKey none (Main.resetGeminiApiKey (some "  abc123  ") [])).1
        = some "abc123" := by
  have e : jsTrim "  abc123  " = "abc123" := by decide
  have h := credential_round_trip "  abc123  " [] (by decide) (by rw [e]; decide)
  rw [e] at h
  exact h

/-- C7: the OpenAI request carries the secret only in the Authorization
Bearer header — its URL is the fixed chat-completions endpoint and its
body does not depend on the key — while the Gemini request carries the
secret only as the key query parameter appended to the URL — its headers
are exactly the content type (no Authorization entry) and its body does
not depend on the key. -/
theorem auth_scheme_placement (apiKey apiKey2 title content lang : String) :
    (Main.summarizeContentOpenAI apiKey title content lang).url = Main.OPENAI_API_URL ∧
    (Main.summarizeContentOpenAI apiKey title content lang).headers
      = [("Content-Type", "application/json"), ("Authorization", "Bearer " ++ apiKey)] ∧
    (Main.summarizeContentOpenAI apiKey title content lang).data
      = (Main.summarizeContentOpenAI apiKey2 title content lang).data ∧
    (Main.summarizeContentGemini apiKey title content lang).url
      = Main.GEMINI_API_URL ++ apiKey ∧
    (Main.summarizeContentGemini apiKey title content lang).headers
      = [("Content-Type", "application/json")] ∧
    (Main.summarizeContentGemini apiKey title content lang).data
      = (Main.summarizeContentGemini apiKey2 title content lang).data :=
  ⟨rfl, rfl, rfl, rfl, rfl, rfl⟩

/-- C8: with no editable element focused, handleKeyDown calls
preventDefault whenever Alt is held — for every key code, not only KeyO
and KeyG — and a summarization is triggered exactly for Alt together with
KeyO (selecting openai) or KeyG (selecting gemini). -/
theorem handleKeyDown_alt_spec (code : String) (alt : Bool) :
    (Main.handleKeyDown false true code).preventDefault = true ∧
    ((Main.handleKeyDown false true code).trigger = some ModelChoice.openai ↔ code = "KeyO") ∧
    ((Main.handleKeyDown false true code).trigger = some ModelChoice.gemini ↔ code = "KeyG") ∧
    ((Main.handleKeyDown false alt code).trigger ≠ none →
      alt = true ∧ (code = "KeyO" ∨ code = "KeyG")) := by
  refine ⟨rfl, ?_, ?_, ?_⟩
  · by_cases h1 : code = "KeyO" <;> by_cases h2 : code = "KeyG" <;>
      simp [Main.handleKeyDown, h1, h2]
  · by_cases h1 : code = "KeyO" <;> by_cases h2 : code = "KeyG" <;>
      simp [Main.handleKeyDown, h1, h2]
  · cases alt with
    | false => simp [Main.handleKeyDown]
    | true =>
      by_cases h1 : code = "KeyO" <;> by_cases h2 : code = "KeyG" <;>
        simp [Main.handleKeyDown, h1, h2]

/-- C9 (amended): in the Main and V1 revisions a positive ArticleCandidate
arises only from a parse result with a non-empty title and a non-empty
content, and a throw, an unreaderable page or a null parse yields null.
The amendment excludes the V2 revision, whose getArticleData tests only
content (see the counterexample). -/
theorem getArticleData_guard (o : ExtractorOutcome) (p : Except Unit (Option Article)) :
    (∀ c, Main.getArticleData o = some c →
      ∃ a, o = .parsed (some a) ∧ a.title ≠ "" ∧ a.content ≠ "" ∧
        c = ⟨a.title, a.textContent⟩) ∧
    Main.getArticleData .threw = none ∧
    Main.getArticleData .notReaderable = none ∧
    Main.getArticleData (.parsed none) = none ∧
    (∀ c, V1.getArticleData p = some c →
      ∃ a, p = .ok (some a) ∧ a.title ≠ "" ∧ a.content ≠ "" ∧
        c = ⟨a.title, a.textContent⟩) := by
  refine ⟨?_, rfl, rfl, rfl, ?_⟩
  · intro c hc
    match o with
    | .threw => exact absurd hc (by simp [Main.getArticleData])
    | .notReaderable => exact absurd hc (by simp [Main.getArticleData])
    | .parsed none => exact absurd hc (by simp [Main.getArticleData])
    | .parsed (some a) =>
      refine ⟨a, rfl, ?_, ?_, ?_⟩ <;>
      · simp only [Main.getArticleData] at hc
        split at hc <;> simp_all
  · intro c hc
    match p with
    | .error () => exact absurd hc (by simp [V1.getArticleData])
    | .ok none => exact absurd hc (by simp [V1.getArticleData])
    | .ok (some a) =>
      refine ⟨a, rfl, ?_, ?_, ?_⟩ <;>
      · simp only [V1.getArticleData] at hc
        split at hc <;> simp_all

/-- C9 counterexample: V2.getArticleData returns a positive candidate for
a parse result whose title is empty (only content is tested in that
revision), contradicting the claim for the cited V2 code. -/
theorem getArticleData_V2_counterexample :
    V2.getArticleData (.parsed (some ⟨"", "<p>x</p>", "x"⟩)) = some ⟨"", "x"⟩ ∧
    ("" : String).length = 0 := by
  constructor <;> decide

/-- C10: on a page without the trigger elements (the page was not
classified as an article, so no button was created) the Main revision's
focus handler and its show and hide helpers perform no action and raise
nothing, while the cited V2.toggleButtonVisibility dereferences the null
getElementById result and throws a TypeError (the error case of the
model). The claim is right about the intended, null-safe behaviour and
the V2 revision's direct dereference is the slip. -/
theorem toggleButtonVisibility_on_empty_page :
    Main.toggleButtonVisibility false false [] = [] ∧
    Main.toggleButtonVisibility true false [] = [] ∧
    Main.toggleButtonVisibility false true [] = [] ∧
    Main.showElement Main.OPENAI_BUTTON_ID [] = [] ∧
    Main.hideElement Main.GEMINI_BUTTON_ID [] = [] ∧
    V2.toggleButtonVisibility false [] = .error () ∧
    V2.toggleButtonVisibility true [] = .error () :=
  ⟨rfl, rfl, rfl, rfl, rfl, rfl, rfl⟩

theorem jsSplitWs_cons_eq (c : Char) (cs : List Char) :
    jsSplitWs (c :: cs) =
      if ws c then
        (match cs with
         | [] => [[], []]
         | c2 :: _ => if ws c2 then jsSplitWs cs else [] :: jsSplitWs cs)
      else
        (match jsSplitWs cs with
         | [] => [[c]]
         | h :: t => (c :: h) :: t) := rfl

theorem jsSplitWs_ne_nil (l : List Char) : jsSplitWs l ≠ [] := by
  induction l with
  | nil => simp [jsSplitWs]
  | cons c cs ih =>
    cases hc : ws c with
    | true =>
      cases cs with
      | nil => simp [jsSplitWs, hc]
      | cons c2 t =>
        cases h2 : ws c2 with
        | true => simpa [jsSplitWs, hc, h2] using ih
        | false => simp [jsSplitWs, hc, h2]
    | false =>
      cases hr : jsSplitWs cs with
      | nil => simp [jsSplitWs, hc, hr]
      | cons a b => simp [jsSplitWs, hc, hr]

theorem jsSplitWs_bound (l : List Char) :
    (jsSplitWs l).length ≤ wordCount l + 2 ∧
    (l.head?.all (fun c => !ws c) = true → (jsSplitWs l).length ≤ wordCount l + 1) := by
  induction l with
  | nil => exact ⟨by simp [jsSplitWs, wordCount], fun _ => by simp [jsSplitWs, wordCount]⟩
  | cons c cs ih =>
    cases hc : ws c with
    | true =>
      refine ⟨?_, ?_⟩
      · cases cs with
        | nil => simp [jsSplitWs, wordCount, hc]
        | cons c2 t =>
          cases h2 : ws c2 with
          | true =>
            have hl : jsSplitWs (c :: c2 :: t) = jsSplitWs (c2 :: t) := by
              simp [jsSplitWs, hc, h2]
            have hw : wordCount (c :: c2 :: t) = wordCount (c2 :: t) := by
              simp [wordCount, hc]
            rw [hl, hw]
            exact ih.1
          | false =>
            have hl : jsSplitWs (c :: c2 :: t) = [] :: jsSplitWs (c2 :: t) := by
              simp [jsSplitWs, hc, h2]
            have hw : wordCount (c :: c2 :: t) = wordCount (c2 :: t) := by
              simp [wordCount, hc]
            have hB2 := ih.2 (by simp [Option.all, h2])
            rw [hl, hw]
            simp only [List.length_cons]
            omega
      · intro hh
        simp [Option.all, hc] at hh
    | false =>
      have hB : (jsSplitWs (c :: cs)).length ≤ wordCount (c :: cs) + 1 := by
        cases cs with
        | nil => simp [jsSplitWs, wordCount, hc]
        | cons c2 t =>
          cases hr : jsSplitWs (c2 :: t) with
          | nil => exact absurd hr (jsSplitWs_ne_nil _)
          | cons a b =>
            have hl : jsSplitWs (c :: c2 :: t) = (c :: a) :: b := by
              rw [jsSplitWs_cons_eq, if_neg (by simp [hc]), hr]
            cases h2 : ws c2 with
            | true =>
              have hw : wordCount (c :: c2 :: t) = 1 + wordCount (c2 :: t) := by
                simp [wordCount, hc, h2]
              have hA := ih.1
              rw [hr] at hA
              rw [hl, hw]
              simp only [List.length_cons] at *
              omega
            | false =>
              have hB2 := ih.2 (by simp [Option.all, h2])
              have hw : wordCount (c :: c2 :: t) = wordCount (c2 :: t) := by
                simp [wordCount, hc, h2]
              rw [hr] at hB2
              rw [hl, hw]
              simp only [List.length_cons] at *
              omega
      exact ⟨hB.trans (by omega), fun _ => hB⟩

/-- C6 (amended): the heuristic classifier returns true exactly when an
article element exists, og:type equals article, the URL matches the keyword
pattern, or the whitespace-split of the body text has more than 500 pieces;
any document with an article element is classified true regardless of word
count. The amendment concerns the word-count signal: the code counts split
pieces, and a leading or trailing whitespace run adds one piece each, so
only a document with fewer than 499 visible words (and no other marker) is
guaranteed to be classified false — at 499 or 500 words surrounding
whitespace can push the split length over 500 (see the counterexample). -/
theorem isArticlePage_characterization (d : HeuristicDoc) :
    (V0.isArticlePage d = true ↔
      (d.hasArticleElement = true ∨ d.ogType = some V0.ogArticle ∨
       V0.urlNewsRegexTest d.url = true ∨ 500 < (jsSplitWs d.bodyText).length)) ∧
    (d.hasArticleElement = true → V0.isArticlePage d = true) ∧
    (wordCount d.bodyText < 499 → d.hasArticleElement = false →
      d.ogType ≠ some V0.ogArticle → V0.urlNewsRegexTest d.url = false →
      V0.isArticlePage d = false) := by
  have hiff : V0.isArticlePage d = true ↔
      (d.hasArticleElement = true ∨ d.ogType = some V0.ogArticle ∨
       V0.urlNewsRegexTest d.url = true ∨ 500 < (jsSplitWs d.bodyText).length) := by
    cases hog : d.ogType with
    | none => simp [V0.isArticlePage, hog, or_assoc]
    | some t => simp [V0.isArticlePage, hog, beq_iff_eq, or_assoc]
  refine ⟨hiff, fun h => hiff.mpr (Or.inl h), ?_⟩
  intro hwc hart hog hurl
  have hb := (jsSplitWs_bound d.bodyText).1
  have hlen : ¬ (500 < (jsSplitWs d.bodyText).length) := by omega
  cases hi : V0.isArticlePage d with
  | false => rfl
  | true =>
    rcases hiff.mp hi with h | h | h | h
    · simp [hart] at h
    · exact absurd h hog
    · simp [hurl] at h
    · exact absurd h hlen

set_option maxRecDepth 10000 in
/-- C6 counterexample: a document of 499 words with surrounding whitespace,
no article element, no og:type tag and a keyword-free URL is classified
true by the code (its whitespace-split has 501 pieces), although the claim
requires a document with fewer than 500 words and no other marker to be
classified false. -/
theorem isArticlePage_wordcount_counterexample :
    V0.isArticlePage heuristicCounterDoc = true ∧
    wordCount heuristicCounterDoc.bodyText = 499 ∧
    heuristicCounterDoc.hasArticleElement = false ∧
    heuristicCounterDoc.ogType = none ∧
    V0.urlNewsRegexTest heuristicCounterDoc.url = false := by
  decide

namespace SpecModel

theorem splitCR_cons_eq (c : Char) (cs : List Char) :
    splitCR (c :: cs) =
      if c = '\n' then ([] :: (splitCR cs).1, (splitCR cs).2)
      else
        (match (splitCR cs).1 with
         | [] => ([], c :: (splitCR cs).2)
         | s :: ss => ((c :: s) :: ss, (splitCR cs).2)) := rfl

theorem splitCR_append (a b : List Char) :
    splitCR (a ++ b) =
      ((splitCR a).1 ++ (splitCR ((splitCR a).2 ++ b)).1,
       (splitCR ((splitCR a).2 ++ b)).2) := by
  induction a with
  | nil => simp [splitCR]
  | cons c a' ih =>
    by_cases hc : c = '\n'
    · subst hc
      rw [List.cons_append, splitCR_cons_eq, if_pos rfl, ih,
        splitCR_cons_eq '\n' a', if_pos rfl]
      simp
    · rw [List.cons_append, splitCR_cons_eq, if_neg hc, ih,
        splitCR_cons_eq c a', if_neg hc]
      cases h1 : (splitCR a').1 with
      | nil =>
        simp only [h1, List.nil_append]
        rw [List.cons_append, splitCR_cons_eq, if_neg hc]
      | cons s ss =>
        simp [h1]

theorem processLines_cons (st : List Char × Bool) (l : List Char) (ls : List (List Char)) :
    processLines st (l :: ls) = if st.2 then st else processLines (lineStep st l) ls := rfl

theorem processLines_of_done (st : List Char × Bool) (ls : List (List Char))
    (h : st.2 = true) : processLines st ls = st := by
  cases ls with
  | nil => rfl
  | cons l ls' => simp [processLines_cons, h]

theorem processLines_append (st : List Char × Bool) (l1 l2 : List (List Char)) :
    processLines st (l1 ++ l2) = processLines (processLines st l1) l2 := by
  induction l1 generalizing st with
  | nil => rfl
  | cons l ls ih =>
    by_cases h : st.2 = true
    · rw [processLines_of_done st ((l :: ls) ++ l2) h, processLines_of_done st (l :: ls) h,
        processLines_of_done st l2 h]
    · rw [List.cons_append, processLines_cons, processLines_cons, if_neg h, if_neg h, ih]

theorem splitCR_snd_no_newline (l : List Char) : '\n' ∉ (splitCR l).2 := by
  induction l with
  | nil => simp [splitCR]
  | cons c cs ih =>
    by_cases hc : c = '\n'
    · subst hc
      rw [splitCR_cons_eq, if_pos rfl]
      simpa using ih
    · rw [splitCR_cons_eq, if_neg hc]
      cases h1 : (splitCR cs).1 with
      | nil =>
        simp only [List.mem_cons, not_or]
        exact ⟨fun he => hc he.symm, ih⟩
      | cons s ss => simpa using ih

theorem splitCR_of_no_newline (l : List Char) (h : '\n' ∉ l) : splitCR l = ([], l) := by
  induction l with
  | nil => rfl
  | cons c cs ih =>
    have hc : c ≠ '\n' := fun he => h (he ▸ List.mem_cons_self c cs)
    have h' : '\n' ∉ cs := fun hm => h (List.mem_cons_of_mem c hm)
    rw [splitCR_cons_eq, if_neg hc, ih h']

theorem feed_mk_true (p e : List Char) (chunk : List Char) :
    feed ⟨p, e, true⟩ chunk = ⟨p, e, true⟩ := rfl

theorem feed_mk_false (p e : List Char) (chunk : List Char) :
    feed ⟨p, e, false⟩ chunk =
      if (processLines (e, false) (splitCR (p ++ chunk)).1).2 then
        ⟨[], (processLines (e, false) (splitCR (p ++ chunk)).1).1, true⟩
      else
        ⟨(splitCR (p ++ chunk)).2, (processLines (e, false) (splitCR (p ++ chunk)).1).1,
         false⟩ := rfl

theorem feed_append (st : StreamBuffer) (a b : List Char) :
    feed (feed st a) b = feed st (a ++ b) := by
  obtain ⟨p, e, d⟩ := st
  cases d with
  | true => rfl
  | false =>
    have hsp : splitCR (p ++ (a ++ b)) =
        ((splitCR (p ++ a)).1 ++ (splitCR ((splitCR (p ++ a)).2 ++ b)).1,
         (splitCR ((splitCR (p ++ a)).2 ++ b)).2) := by
      rw [← List.append_assoc]
      exact splitCR_append (p ++ a) b
    rw [feed_mk_false p e a, feed_mk_false p e (a ++ b), hsp]
    cases hr1 : (processLines (e, false) (splitCR (p ++ a)).1).2 with
    | true =>
      rw [if_pos rfl, feed_mk_true]
      have hq : processLines (e, false)
            ((splitCR (p ++ a)).1 ++ (splitCR ((splitCR (p ++ a)).2 ++ b)).1)
          = processLines (e, false) (splitCR (p ++ a)).1 := by
        rw [processLines_append]
        exact processLines_of_done _ _ hr1
      dsimp only
      rw [hq, if_pos hr1]
    | false =>
      rw [if_neg (show ¬((false : Bool) = true) by simp)]
      have heta : ((processLines (e, false) (splitCR (p ++ a)).1).1, false)
          = processLines (e, false) (splitCR (p ++ a)).1 := by
        nth_rewrite 2 [← hr1]
        exact Prod.mk.eta
      have hq : processLines (e, false)
            ((splitCR (p ++ a)).1 ++ (splitCR ((splitCR (p ++ a)).2 ++ b)).1)
          = processLines ((processLines (e, false) (splitCR (p ++ a)).1).1, false)
              (splitCR ((splitCR (p ++ a)).2 ++ b)).1 := by
        rw [processLines_append, heta]
      rw [feed_mk_false]
      dsimp only
      rw [hq]

theorem feed_nil (st : StreamBuffer) (h : '\n' ∉ st.pending) : feed st [] = st := by
  obtain ⟨p, e, d⟩ := st
  cases d with
  | true => rfl
  | false =>
    have h' : '\n' ∉ p := h
    rw [feed_mk_false, List.append_nil, splitCR_of_no_newline p h']
    rfl

theorem feed_pending_no_newline (st : StreamBuffer) (c : List Char) (h : '\n' ∉ st.pending) :
    '\n' ∉ (feed st c).pending := by
  obtain ⟨p, e, d⟩ := st
  cases d with
  | true => exact h
  | false =>
    rw [feed_mk_false]
    cases hr : (processLines (e, false) (splitCR (p ++ c)).1).2 with
    | true =>
      rw [if_pos rfl]
      exact List.not_mem_nil '\n'
    | false =>
      rw [if_neg (show ¬((false : Bool) = true) by simp)]
      exact splitCR_snd_no_newline (p ++ c)

theorem feedAll_eq_feed_flatten (chunks : List (List Char)) :
    ∀ st : StreamBuffer, '\n' ∉ st.pending →
      feedAll st chunks = feed st chunks.flatten := by
  induction chunks with
  | nil => exact fun st h => (feed_nil st h).symm
  | cons c cs ih =>
    intro st h
    have h1 : feedAll st (c :: cs) = feedAll (feed st c) cs := by
      simp [feedAll]
    rw [h1, ih (feed st c) (feed_pending_no_newline st c h), List.flatten_cons,
      feed_append]

theorem splitCR_line (l rest : List Char) (h : '\n' ∉ l) :
    splitCR (l ++ '\n' :: rest) = (l :: (splitCR rest).1, (splitCR rest).2) := by
  induction l with
  | nil => simp [splitCR_cons_eq]
  | cons c cs ih =>
    have hc : c ≠ '\n' := fun he => h (he ▸ List.mem_cons_self c cs)
    have h' : '\n' ∉ cs := fun hm => h (List.mem_cons_of_mem c hm)
    rw [List.cons_append, splitCR_cons_eq, if_neg hc, ih h']

theorem marker_take (x : List Char) : (marker ++ x).take 6 = marker := rfl

theorem marker_drop (x : List Char) : (marker ++ x).drop 6 = x := rfl

theorem parseDelta_payload (d : List Char) :
    parseDelta (deltaOpen ++ (d ++ deltaClose)) = some d := by
  have hlen : (deltaOpen ++ (d ++ deltaClose)).length = d.length + 10 := by
    simp [deltaOpen, deltaClose]
  have h1 : (deltaOpen ++ (d ++ deltaClose)).take 8 = deltaOpen := rfl
  have h2 : (deltaOpen ++ (d ++ deltaClose)).drop
      ((deltaOpen ++ (d ++ deltaClose)).length - 2) = deltaClose := by
    rw [hlen, ← List.append_assoc]
    have hdl : (deltaOpen ++ d).length = d.length + 8 := by
      simp [deltaOpen]
    rw [show d.length + 10 - 2 = (deltaOpen ++ d).length from by rw [hdl]; omega]
    exact List.drop_left _ _
  have h3 : (((deltaOpen ++ (d ++ deltaClose)).drop 8).take
      ((deltaOpen ++ (d ++ deltaClose)).length - 10)) = d := by
    have hd8 : (deltaOpen ++ (d ++ deltaClose)).drop 8 = d ++ deltaClose := rfl
    rw [hd8, hlen, show d.length + 10 - 10 = d.length from by omega]
    exact List.take_left _ _
  unfold parseDelta
  rw [if_pos ⟨h1, by rw [hlen]; omega, h2⟩, h3]

theorem payload_ne_sentinel (d : List Char) :
    deltaOpen ++ (d ++ deltaClose) ≠ sentinel :=
  fun h => absurd (congrArg (List.take 1) h) (show ¬(['{'] = ['[']) by decide)

theorem lineStep_marker_delta (st : List Char × Bool) (d : List Char) :
    lineStep st (marker ++ (deltaOpen ++ (d ++ deltaClose))) = (st.1 ++ d, st.2) := by
  simp [lineStep, marker_take, marker_drop, payload_ne_sentinel d, parseDelta_payload d]

theorem lineStep_sentinel (st : List Char × Bool) :
    lineStep st (marker ++ sentinel) = (st.1, true) := by
  simp [lineStep, marker_take, marker_drop]

theorem lineStep_empty (st : List Char × Bool) : lineStep st [] = st := by
  simp [lineStep, marker]

theorem line_no_newline (d : List Char) (hd : '\n' ∉ d) :
    '\n' ∉ marker ++ (deltaOpen ++ (d ++ deltaClose)) := by
  intro h
  rcases List.mem_append.mp h with h1 | h2
  · exact absurd h1 (by decide)
  · rcases List.mem_append.mp h2 with h3 | h4
    · exact absurd h3 (by decide)
    · rcases List.mem_append.mp h4 with h5 | h6
      · exact hd h5
      · exact absurd h6 (by decide)

theorem feed_encodeFrame (e d : List Char) (hd : '\n' ∉ d) :
    feed ⟨[], e, false⟩ (encodeFrame d) = ⟨[], e ++ d, false⟩ := by
  have harr : encodeFrame d =
      (marker ++ (deltaOpen ++ (d ++ deltaClose))) ++ ('\n' :: ['\n']) := by
    simp [encodeFrame, List.append_assoc]
  have hsplit : splitCR (([] : List Char) ++ encodeFrame d) =
      ([marker ++ (deltaOpen ++ (d ++ deltaClose)), []], []) := by
    rw [List.nil_append, harr, splitCR_line _ _ (line_no_newline d hd)]
    rfl
  have hpl : processLines (e, false) [marker ++ (deltaOpen ++ (d ++ deltaClose)), []]
      = (e ++ d, false) := by
    rw [processLines_cons, if_neg (by simp), lineStep_marker_delta,
      processLines_cons, if_neg (by simp), lineStep_empty]
    rfl
  rw [feed_mk_false, hsplit]
  dsimp only
  rw [hpl]
  rfl

theorem feed_doneFrame (e : List Char) :
    feed ⟨[], e, false⟩ doneFrame = ⟨[], e, true⟩ := by
  have hsplit : splitCR (([] : List Char) ++ doneFrame) =
      ([marker ++ sentinel, []], []) := by
    rw [List.nil_append,
      show doneFrame = (marker ++ sentinel) ++ ('\n' :: ['\n']) from by
        simp [doneFrame, List.append_assoc],
      splitCR_line _ _ (by decide)]
    rfl
  have hpl : processLines (e, false) [marker ++ sentinel, []] = (e, true) := by
    rw [processLines_cons, if_neg (by simp), lineStep_sentinel]
    exact processLines_of_done _ _ rfl
  rw [feed_mk_false, hsplit]
  dsimp only
  rw [hpl]
  rfl

theorem feed_eventStream (ds : List (List Char)) (hd : ∀ d ∈ ds, '\n' ∉ d)
    (e : List Char) :
    feed ⟨[], e, false⟩ (eventStream ds) = ⟨[], e ++ ds.flatten, true⟩ := by
  induction ds generalizing e with
  | nil =>
    simp only [eventStream, List.map_nil, List.flatten_nil, List.nil_append,
      List.append_nil]
    exact feed_doneFrame e
  | cons d ds ih =>
    have h1 : '\n' ∉ d := hd d (List.mem_cons_self d ds)
    have h2 : ∀ x ∈ ds, '\n' ∉ x := fun x hx => hd x (List.mem_cons_of_mem d hx)
    have hstream : eventStream (d :: ds) = encodeFrame d ++ eventStream ds := by
      simp [eventStream, List.append_assoc]
    rw [hstream, ← feed_append, feed_encodeFrame e d h1, ih h2]
    simp [List.append_assoc]

/-- C2: the Streaming Assembler's output is invariant under transport
chunking: for every logical event stream of marker-prefixed delta frames
ending in the sentinel frame (deltas free of newlines), and for every way
of splitting that stream into chunks fed one at a time, the emitted text
is the in-order concatenation of the frames' delta fields and the
assembler stops at the sentinel. The assembler is modelled from the spec:
the repository carries no streaming implementation. -/
theorem streaming_assembler_chunking (ds chunks : List (List Char))
    (hd : ∀ d ∈ ds, '\n' ∉ d)
    (hc : chunks.flatten = eventStream ds) :
    (feedAll initBuffer chunks).emitted = ds.flatten ∧
    (feedAll initBuffer chunks).done = true := by
  rw [feedAll_eq_feed_flatten chunks initBuffer (by simp [initBuffer]), hc,
    show initBuffer = ⟨[], [], false⟩ from rfl, feed_eventStream ds hd []]
  simp

/-- C2 witness: the spec's Hel, lo, sentinel vector split at byte offset
16 — in the middle of the first frame — emits exactly Hello and stops. -/
theorem streaming_assembler_chunking_witness :
    (feedAll initBuffer [helloChunk1, helloChunk2]).emitted = "Hello".data ∧
    (feedAll initBuffer [helloChunk1, helloChunk2]).done = true := by
  obtain ⟨h1, h2⟩ := streaming_assembler_chunking ["Hel".data, "lo".data]
    [helloChunk1, helloChunk2] (by decide) (by decide)
  refine ⟨?_, h2⟩
  rw [h1]
  decide

end SpecModel

end SWA
